import Mathlib

/-!
Verification of the CDCT jury-consensus subsystem and retry policy.

Shallow embedding of `src/retry_handler.py` and the `LLMJury` class of
`src/llm_jury.py`. Python floats are modelled as exact rationals (`ℚ`);
`np.std`, which takes a real square root, lives in `ℝ`. Strings are
modelled as `String` / `List Char`.
-/

namespace CDCT

/-! ## retry_handler.py -/

/-- `ErrorType` enum of retry_handler.py (lines 13-20). -/
inductive ErrorType where
  | timeout
  | rateLimit
  | serviceError
  | invalidRequest
  | authentication
  | other
deriving DecidableEq, Repr

/-- A Python exception as `classify_error` observes it: `str(exception)` and
`type(exception).__name__`. -/
structure PyExc where
  msg : String
  tyName : String
deriving DecidableEq, Repr

/-- `isPrefixOfL p s` : the char list `p` is a prefix of `s` (structural, so the
kernel can evaluate it). -/
def isPrefixOfL : List Char → List Char → Bool
  | [], _ => true
  | _ :: _, [] => false
  | p :: ps, c :: cs => p == c && isPrefixOfL ps cs

/-- Python's `pat in s` substring test over char lists. -/
def containsSubL (pat : List Char) : List Char → Bool
  | [] => isPrefixOfL pat []
  | c :: rest => isPrefixOfL pat (c :: rest) || containsSubL pat rest

/-- `str.lower()` over char lists. -/
def toLowerL (s : List Char) : List Char := s.map Char.toLower

/-- Message patterns classified as TIMEOUT (line 50). -/
def timeoutMsgPatterns : List String := ["timeout", "timed out", "deadline", "408"]

/-- Type-name patterns classified as TIMEOUT (line 53). -/
def timeoutTypePatterns : List String := ["timeout", "deadline"]

/-- Message patterns classified as RATE_LIMIT (line 57). -/
def rateLimitPatterns : List String := ["rate limit", "429", "too many requests", "quota"]

/-- Message patterns classified as SERVICE_ERROR (line 61). -/
def serviceErrorPatterns : List String := ["503", "502", "500", "overloaded", "unavailable", "busy"]

/-- Message patterns classified as AUTHENTICATION (line 65). -/
def authPatterns : List String := ["401", "403", "unauthorized", "forbidden", "invalid api", "authentication"]

/-- Message patterns classified as INVALID_REQUEST (line 69). -/
def invalidRequestPatterns : List String := ["400", "invalid", "malformed", "bad request"]

/-- `classify_error` (lines 33-72). The `exception is None` early return is not
modelled: a `PyExc` is always an exception. -/
def classify_error (e : PyExc) : ErrorType :=
  let msg := toLowerL e.msg.data
  let ty := toLowerL e.tyName.data
  if timeoutMsgPatterns.any (fun p => containsSubL p.data msg) then ErrorType.timeout
  else if timeoutTypePatterns.any (fun p => containsSubL p.data ty) then ErrorType.timeout
  else if rateLimitPatterns.any (fun p => containsSubL p.data msg) then ErrorType.rateLimit
  else if serviceErrorPatterns.any (fun p => containsSubL p.data msg) then ErrorType.serviceError
  else if authPatterns.any (fun p => containsSubL p.data msg) then ErrorType.authentication
  else if invalidRequestPatterns.any (fun p => containsSubL p.data msg) then ErrorType.invalidRequest
  else ErrorType.other

/-- `should_retry` (lines 75-99). -/
def should_retry (et : ErrorType) (attempt maxRetries : ℕ) : Bool :=
  if maxRetries ≤ attempt then false
  else if et == ErrorType.timeout || et == ErrorType.rateLimit || et == ErrorType.serviceError
    then true
  else if et == ErrorType.authentication || et == ErrorType.invalidRequest then false
  else attempt == 0

/-- The `for attempt in range(config.max_retries + 1)` loop of `call_with_retry`
(lines 161-198). `op n` is the outcome of the n-th invocation of `func` (a raised
exception becomes `Except.error`). The fuel argument is the number of loop
iterations left. The second component of the result counts how many times `func`
was invoked; sleeping, jitter, logging and the `error_callback` are effect-free
with respect to the returned value and are not modelled. The dead
`config.allowed_exceptions` check (lines 170-172) is a `pass` and is omitted. -/
def retryGo {α : Type} (op : ℕ → Except PyExc α) (maxRetries : ℕ) :
    ℕ → ℕ → Option α × ℕ
  | _, 0 => (none, 0)
  | attempt, fuel + 1 =>
    match op attempt with
    | Except.ok v => (some v, 1)
    | Except.error e =>
      if should_retry (classify_error e) attempt maxRetries then
        if attempt < maxRetries then
          let p := retryGo op maxRetries (attempt + 1) fuel
          (p.1, p.2 + 1)
        else (none, 1)
      else (none, 1)

/-- `call_with_retry` (lines 126-198): runs the loop from attempt 0, with
`max_retries + 1` iterations available. Returns the source's return value
(`Option α`) paired with the number of invocations of `func`. -/
def call_with_retry {α : Type} (op : ℕ → Except PyExc α) (maxRetries : ℕ) :
    Option α × ℕ :=
  retryGo op maxRetries 0 (maxRetries + 1)

/-! ## llm_jury.py — data model -/

/-- The per-judge verdict dict built by `_evaluate_with_agent` (lines 252-261):
three optional scores and an optional `"error"` key. -/
structure Verdict where
  CC : Option ℚ
  SA : Option ℚ
  FC : Option ℚ
  error : Option String
deriving DecidableEq

/-- The three metrics. -/
inductive Metric where
  | CC
  | SA
  | FC
deriving DecidableEq, Repr

/-- `verdict.get(metric)` for the three metric keys (they are always present in
a verdict dict; absence of a score is `None`). -/
def Verdict.get (v : Verdict) : Metric → Option ℚ
  | Metric.CC => v.CC
  | Metric.SA => v.SA
  | Metric.FC => v.FC

/-- `jury_verdicts` models a Python dict: an association list in insertion
order; as with a dict, the judge names are assumed distinct where it matters. -/
abbrev JuryVerdicts : Type := List (String × Verdict)

/-- The validity gate of `_compute_consensus` (lines 496-498): a judge is kept
iff its verdict has no `"error"` key AND its `CC` is not `None`. -/
def isValidVerdict (v : Verdict) : Bool := v.error.isNone && v.CC.isSome

/-- `_evaluate_with_agent` (lines 242-259) guarantees: whenever any of the three
scores is `None`, an error string is attached. Verdicts reaching
`_compute_consensus` have this shape (the `except` path of the orchestrator,
lines 176-182, also satisfies it). -/
def WellFormed (v : Verdict) : Bool :=
  (v.CC.isSome && v.SA.isSome && v.FC.isSome) || v.error.isSome

/-- The valid entries of the verdicts map, in order (lines 496-503). -/
def validEntries (vs : JuryVerdicts) : JuryVerdicts :=
  vs.filter (fun p => isValidVerdict p.2)

/-- `valid_judges` (line 500): the names of the valid judges. -/
def valid_judges (vs : JuryVerdicts) : List String :=
  (validEntries vs).map Prod.fst

/-- `cc_scores` (line 501). For a valid judge `CC` is necessarily present. -/
def cc_scores (vs : JuryVerdicts) : List ℚ :=
  (validEntries vs).filterMap (fun p => p.2.CC)

/-- `sa_scores` (line 502). Python appends `verdict.get("SA")` even when it is
`None`, in which case the later `np.std`/`np.mean` call raises (and the caller
records a consensus-computation error); for well-formed verdicts (`WellFormed`)
a valid judge's `SA` is never `None`, and this extraction coincides with the
source. Theorems about score lists therefore carry a `WellFormed` hypothesis. -/
def sa_scores (vs : JuryVerdicts) : List ℚ :=
  (validEntries vs).filterMap (fun p => p.2.SA)

/-- `fc_scores` (line 503); same remark as for `sa_scores`. -/
def fc_scores (vs : JuryVerdicts) : List ℚ :=
  (validEntries vs).filterMap (fun p => p.2.FC)

/-- `CONSENSUS_WEIGHTS` (lines 64-77), in dict insertion order;
0.60 = 3/5, 0.40 = 2/5, 0.50 = 1/2. -/
def CONSENSUS_WEIGHTS : Metric → List (String × ℚ)
  | Metric.CC => [("DeepSeek-v3.2", 3/5), ("gpt-5.2", 2/5)]
  | Metric.SA => [("gpt-5.2", 3/5), ("DeepSeek-v3.2", 2/5)]
  | Metric.FC => [("gpt-5.2", 1/2), ("DeepSeek-v3.2", 1/2)]

/-- `jury_verdicts.get(judge_name)` (line 599). -/
def lookupJudge (vs : JuryVerdicts) (name : String) : Option Verdict :=
  (List.find? (fun p => p.1 == name) vs).map Prod.snd

/-- The (value, weight) pairs accumulated by the loop of `_weighted_mean`
(lines 595-608): a judge in the weight table contributes iff it is valid,
present in the verdicts map, and its value for the metric is not `None`. -/
def contributions (vs : JuryVerdicts) (metric : Metric)
    (weights : List (String × ℚ)) (valid : List String) : List (ℚ × ℚ) :=
  weights.filterMap (fun nw =>
    if nw.1 ∈ valid then
      match lookupJudge vs nw.1 with
      | some v => (v.get metric).map (fun x => (x, nw.2))
      | none => none
    else none)

/-- `_weighted_mean` (lines 578-613): `None` when the total contributing weight
is zero, else the weight-normalized sum. -/
def weighted_mean (vs : JuryVerdicts) (metric : Metric)
    (weights : List (String × ℚ)) (valid : List String) : Option ℚ :=
  let cs := contributions vs metric weights valid
  let weight_sum := (cs.map Prod.snd).sum
  if weight_sum = 0 then none
  else some ((cs.map (fun p => p.1 * p.2)).sum / weight_sum)

/-! ## llm_jury.py — numpy helpers, rounding -/

/-- `np.mean` over exact rationals (division by a zero length only ever arises
where the source guards against the empty list). -/
def npMean (xs : List ℚ) : ℚ := xs.sum / xs.length

/-- The population variance underlying `np.std` (numpy's default `ddof=0`). -/
def popVariance (xs : List ℚ) : ℚ :=
  (xs.map (fun x => (x - npMean xs) ^ 2)).sum / xs.length

/-- `np.std`: the real square root of the population variance. On finite exact
inputs this is never NaN or Inf, so the guards of lines 542-544 are the
identity and are not modelled separately. -/
noncomputable def npStd (xs : List ℚ) : ℝ := Real.sqrt ((popVariance xs : ℚ) : ℝ)

/-- `np.std(xs) if len(xs) > 1 else 0.0` (lines 537-539). -/
noncomputable def stdGate (xs : List ℚ) : ℝ :=
  if 1 < xs.length then npStd xs else 0

/-- Round-half-to-even on an exact rational: the idealization of Python's
`round` on a float. -/
def roundHalfEven (x : ℚ) : ℤ :=
  if x - ⌊x⌋ < 1/2 then ⌊x⌋
  else if 1/2 < x - ⌊x⌋ then ⌊x⌋ + 1
  else if 2 ∣ ⌊x⌋ then ⌊x⌋ else ⌊x⌋ + 1

/-- Python's `round(x, 4)` on exact rationals. -/
def pyRound4 (x : ℚ) : ℚ := (roundHalfEven (x * 10000) : ℚ) / 10000

/-- Round-half-to-even on a real. -/
noncomputable def roundHalfEvenR (x : ℝ) : ℤ :=
  if x - ⌊x⌋ < 1/2 then ⌊x⌋
  else if 1/2 < x - ⌊x⌋ then ⌊x⌋ + 1
  else if 2 ∣ ⌊x⌋ then ⌊x⌋ else ⌊x⌋ + 1

/-- Python's `round(x, 4)` on a real. -/
noncomputable def pyRound4R (x : ℝ) : ℝ := (roundHalfEvenR (x * 10000) : ℝ) / 10000

/-! ## llm_jury.py — consensus -/

/-- The consensus dict. The early error return (lines 507-515) has no
`judge_variance_*` keys, so those are optional; the main return (lines 566-576)
has no `"error"` key. -/
structure ConsensusVerdict where
  CC : Option ℚ
  SA : Option ℚ
  FC : Option ℚ
  agreement_score : ℝ
  judge_variance_CC : Option ℝ
  judge_variance_SA : Option ℝ
  judge_variance_FC : Option ℝ
  judge_count : ℕ
  error : Option String
  recommendation : String

/-- `agreement_score` before rounding (lines 547-549):
`min(1, max(0, 1 - avg_std * 2))`. -/
noncomputable def agreementRaw (vs : JuryVerdicts) : ℝ :=
  let avg_std := (stdGate (cc_scores vs) + stdGate (sa_scores vs) + stdGate (fc_scores vs)) / 3
  min 1 (max 0 (1 - avg_std * 2))

/-- The agreement formula as the spec states it:
`clamp(1 - 2·mean(CC_std, SA_std, FC_std), 0, 1)` where each std is the
population standard deviation of the valid judges' scores for that metric,
zero when fewer than 2 values. Stated from the spec's words, to be compared
with what `compute_consensus` returns. -/
noncomputable def specAgreement (vs : JuryVerdicts) : ℝ :=
  min 1 (max 0 (1 - 2 *
    ((stdGate (cc_scores vs) + stdGate (sa_scores vs) + stdGate (fc_scores vs)) / 3)))

open Classical

/-- `_compute_consensus` (lines 480-576). The `float(...)`/NaN checks of lines
561-564 and 570 are the identity over exact arithmetic. `round(x, 4)` is
`pyRound4`. -/
noncomputable def compute_consensus (vs : JuryVerdicts) : ConsensusVerdict :=
  if (validEntries vs).length < 1 then
    { CC := none, SA := none, FC := none, agreement_score := 0,
      judge_variance_CC := none, judge_variance_SA := none, judge_variance_FC := none,
      judge_count := 0, error := some "No valid judges",
      recommendation := "FAILED - No valid judge results" }
  else
    let cc_consensus := weighted_mean vs Metric.CC (CONSENSUS_WEIGHTS Metric.CC) (valid_judges vs)
    let sa_consensus := weighted_mean vs Metric.SA (CONSENSUS_WEIGHTS Metric.SA) (valid_judges vs)
    let fc_consensus : Option ℚ :=
      if fc_scores vs = [] then none else some (npMean (fc_scores vs))
    let agreement := agreementRaw vs
    let rec_text :=
      if (validEntries vs).length = 1 then "SINGLE JUDGE - No consensus possible"
      else if (0.85 : ℝ) < agreement then "ROBUST - Unanimous jury"
      else if (0.65 : ℝ) < agreement then "MODERATE - Jury consensus with variation"
      else "CAUTION - Jury disagreement (brittle response?)"
    { CC := cc_consensus.map pyRound4,
      SA := sa_consensus.map pyRound4,
      FC := fc_consensus.map pyRound4,
      agreement_score := pyRound4R agreement,
      judge_variance_CC := some (pyRound4R (stdGate (cc_scores vs))),
      judge_variance_SA := some (pyRound4R (stdGate (sa_scores vs))),
      judge_variance_FC := some (pyRound4R (stdGate (fc_scores vs))),
      judge_count := (validEntries vs).length,
      error := none,
      recommendation := rec_text }

/-! ## llm_jury.py — prompt builder (length-violation note) -/

/-- The violation note of `_build_evaluation_prompt` (lines 335-345). Each
constructor stands for one of the four literal note strings the source embeds
in the prompt; the payload is the exact number the f-string renders:
`major x`     = "(warning) Response is \x7bx:.1f\x7d× the expected length",
`minor x`     = "(warning) Response exceeds expected length by \x7bx:.0f\x7d%",
`compliant`   = "(check) Response length is appropriate",
`noLimit`     = "No strict length limit at this compression level". -/
inductive ViolationNote where
  | major (x : ℚ)
  | minor (x : ℚ)
  | compliant
  | noLimit
deriving DecidableEq, Repr

/-- Lines 336-345: `violation_ratio = response_word_count / expected_word_limit`
when a (truthy, hence non-zero) limit exists; `> 2.0` gives the major note,
`> 1.5` the minor note with the excess percentage, else the compliant note. -/
def violation_note (response_word_count : ℕ) (expected_word_limit : Option ℕ) :
    ViolationNote :=
  match expected_word_limit with
  | some l =>
    if l = 0 then ViolationNote.noLimit
    else
      let r : ℚ := (response_word_count : ℚ) / l
      if 2 < r then ViolationNote.major r
      else if 3/2 < r then ViolationNote.minor ((r - 1) * 100)
      else ViolationNote.compliant
  | none => ViolationNote.noLimit

/-- Python's `x or d` over an optional count: `None` and `0` are falsy. -/
def pyOrNat (v : Option ℕ) (d : ℕ) : ℕ :=
  match v with
  | some n => if n = 0 then d else n
  | none => d

/-- The `expected_word_limit` reassignment inside `_build_evaluation_prompt`
(lines 293-333): `< 0.3` → `expected_word_limit or 20`; `< 0.6` →
`expected_word_limit or 50`; otherwise no hard limit. -/
def prompt_word_limit (compression_level : ℚ) (expected_word_limit : Option ℕ) :
    Option ℕ :=
  if compression_level < 3/10 then some (pyOrNat expected_word_limit 20)
  else if compression_level < 6/10 then some (pyOrNat expected_word_limit 50)
  else none

/-- `len(s.split())`: count of maximal whitespace-free runs. The boolean flag
records whether the scan is inside a word. -/
def countWords : List Char → Bool → ℕ
  | [], _ => 0
  | c :: rest, inside =>
    if c.isWhitespace then countWords rest false
    else (if inside then 0 else 1) + countWords rest true

/-- `response_word_count = len(subject_response.split())` (line 283). -/
def word_count (s : String) : ℕ := countWords s.data false

/-- The violation note the rendered prompt carries, as a function of the
response text, the compression level and the caller-supplied limit
(lines 283, 293-345). -/
def promptViolationNote (subject_response : String) (compression_level : ℚ)
    (expected_word_limit : Option ℕ) : ViolationNote :=
  violation_note (word_count subject_response)
    (prompt_word_limit compression_level expected_word_limit)

/-! ## llm_jury.py — `_parse_verdict` (lines 454-478)

`json.loads` and `re.search` are Python-stdlib collaborators; they are modelled
below, faithful to the spec's wire contract. -/

/-- A parsed JSON value as Python represents it. -/
inductive PyVal where
  | null
  | bool (b : Bool)
  | num (q : ℚ)
  | str (s : List Char)
  | arr (xs : List PyVal)
  | obj (fields : List (List Char × PyVal))

/-- JSON / regex whitespace (`\f`/`\v` omitted: they never appear here). -/
def isWsChar (c : Char) : Bool := c == ' ' || c == '\t' || c == '\n' || c == '\r'

/-- Drop leading whitespace. -/
def skipWs : List Char → List Char
  | [] => []
  | c :: rest => if isWsChar c then skipWs rest else c :: rest

/-- Python's `str.strip()`. -/
def stripL (s : List Char) : List Char :=
  ((s.dropWhile isWsChar).reverse.dropWhile isWsChar).reverse

/-- Leading decimal digits of a char list, and the rest. -/
def takeDigits : List Char → List Char × List Char
  | [] => ([], [])
  | c :: rest =>
    if c.isDigit then
      let p := takeDigits rest
      (c :: p.1, p.2)
    else ([], c :: rest)

/-- The natural number a digit run denotes. -/
def digitsVal (ds : List Char) : ℕ := ds.foldl (fun n c => 10 * n + (c.toNat - 48)) 0

/-- A JSON string literal body (after the opening quote): the text up to the
closing quote and the rest. Modelled from the spec: escape sequences are
outside the wire contract (`\x7b"score": <number>\x7d`) and are a parse error
here. -/
def parseStrLit : List Char → Except String (List Char × List Char)
  | [] => Except.error "Unterminated string"
  | c :: rest =>
    if c == '"' then Except.ok ([], rest)
    else if c == '\\' then Except.error "Escape sequences not supported"
    else (parseStrLit rest).map (fun p => (c :: p.1, p.2))

/-- A JSON number (integer or decimal fraction; exponents are outside the wire
contract and rejected as trailing data). -/
def parseNumLit (s : List Char) : Except String (PyVal × List Char) :=
  let sgn := match s with
    | '-' :: r => (true, r)
    | _ => (false, s)
  let ds := takeDigits sgn.2
  if ds.1.isEmpty then Except.error "Expecting value"
  else
    let ip : ℚ := (digitsVal ds.1 : ℚ)
    match ds.2 with
    | '.' :: r =>
      let fs := takeDigits r
      if fs.1.isEmpty then Except.error "Expecting digits after decimal point"
      else
        let q := ip + (digitsVal fs.1 : ℚ) / ((10 : ℚ) ^ fs.1.length)
        Except.ok (PyVal.num (if sgn.1 then -q else q), fs.2)
    | _ => Except.ok (PyVal.num (if sgn.1 then -ip else ip), ds.2)

/-- Mode of the single-function JSON reader: a value, the members of an object,
or the items of an array (structural recursion on fuel keeps every branch
kernel-evaluable). -/
inductive PMode where
  | value
  | members (first : Bool) (acc : List (List Char × PyVal))
  | items (first : Bool) (acc : List PyVal)

/-- Modelled from the spec: the core of Python's `json.loads` on the judge
response wire contract — a fuel-bounded recursive-descent reader for JSON
values. Returns the value and the unconsumed rest, or a parse error. -/
def parseCore : ℕ → PMode → List Char → Except String (PyVal × List Char)
  | 0, _, _ => Except.error "Too deeply nested"
  | n + 1, PMode.value, s =>
    let s := skipWs s
    match s with
    | [] => Except.error "Expecting value"
    | c :: rest =>
      if c == '{' then parseCore n (PMode.members true []) rest
      else if c == '[' then parseCore n (PMode.items true []) rest
      else if c == '"' then (parseStrLit rest).map (fun p => (PyVal.str p.1, p.2))
      else if isPrefixOfL "true".data s then Except.ok (PyVal.bool true, s.drop 4)
      else if isPrefixOfL "false".data s then Except.ok (PyVal.bool false, s.drop 5)
      else if isPrefixOfL "null".data s then Except.ok (PyVal.null, s.drop 4)
      else if c == '-' || c.isDigit then parseNumLit s
      else Except.error "Expecting value"
  | n + 1, PMode.members first acc, s =>
    let s := skipWs s
    match s with
    | [] => Except.error "Unterminated object"
    | c :: rest =>
      if c == '}' && first then Except.ok (PyVal.obj acc.reverse, rest)
      else if c == '"' then do
        let (key, r1) ← parseStrLit rest
        let r2 := skipWs r1
        match r2 with
        | ':' :: r3 => do
          let (v, r4) ← parseCore n PMode.value r3
          let r5 := skipWs r4
          match r5 with
          | '}' :: r6 => Except.ok (PyVal.obj ((key, v) :: acc).reverse, r6)
          | ',' :: r6 => parseCore n (PMode.members false ((key, v) :: acc)) r6
          | _ => Except.error "Expecting delimiter"
        | _ => Except.error "Expecting colon"
      else Except.error "Expecting property name"
  | n + 1, PMode.items first acc, s =>
    let s := skipWs s
    match s with
    | [] => Except.error "Unterminated array"
    | c :: rest =>
      if c == ']' && first then Except.ok (PyVal.arr acc.reverse, rest)
      else do
        let (v, r1) ← parseCore n PMode.value s
        let r2 := skipWs r1
        match r2 with
        | ']' :: r3 => Except.ok (PyVal.arr (v :: acc).reverse, r3)
        | ',' :: r3 => parseCore n (PMode.items false (v :: acc)) r3
        | _ => Except.error "Expecting delimiter"

/-- Modelled from the spec: `json.loads` — a full parse of the input as one
JSON value, with trailing non-whitespace an error. -/
def json_loads (s : List Char) : Except String PyVal :=
  match parseCore (2 * s.length + 4) PMode.value s with
  | Except.error e => Except.error e
  | Except.ok (v, rest) =>
    if (skipWs rest).isEmpty then Except.ok v
    else Except.error "Extra data"

/-- The backtracking search for the closing brace of the regex group
`\{.*?\}` followed by `\s*`-then-fence: the non-greedy star takes the first
closing brace whose tail matches, backtracking past it otherwise. The
accumulator carries the group read so far, reversed. -/
def matchGroup : List Char → List Char → Option (List Char × List Char)
  | [], _ => none
  | c :: rest, acc =>
    if c == '}' && isPrefixOfL "```".data (skipWs rest) then
      some ((c :: acc).reverse, rest)
    else matchGroup rest (c :: acc)

/-- Modelled from the spec ("if the text is wrapped in a code-fence, unwrap it
first"): one attempted match of the source regex
 (backtick backtick backtick)(?:json)?\s*(\{.*?\})\s*(backtick backtick backtick)
at the head of the input, returning group 1. -/
def matchFenceAt (s : List Char) : Option (List Char) :=
  if isPrefixOfL "```".data s then
    let s1 := s.drop 3
    let s2 := if isPrefixOfL "json".data s1 then s1.drop 4 else s1
    match skipWs s2 with
    | '{' :: r => (matchGroup r ['{']).map Prod.fst
    | _ => none
  else none

/-- `re.search` over the fence pattern: the match at the earliest start
position (line 461). -/
def searchFence : List Char → Option (List Char)
  | [] => none
  | c :: rest =>
    match matchFenceAt (c :: rest) with
    | some g => some g
    | none => searchFence rest

/-- Lines 461-463: the text `_parse_verdict` hands to `json.loads` — group 1
of the fence match when the fence pattern matches, else the raw response. The
truncated raw copy stored on failure is taken from this (possibly unwrapped)
text, since the source reassigns `response_text`. -/
def unwrapText (response_text : List Char) : List Char :=
  match searchFence response_text with
  | some g => g
  | none => response_text

/-- Modelled from the spec: Python's `float(score)` coercion for a non-`None`
parsed score. Numbers coerce, booleans coerce as 1/0; containers raise
`TypeError`. (Python additionally coerces numeric *strings*; a string score is
outside the wire contract — `score` is a number — and is treated as raising
here.) -/
def pyFloat : PyVal → Except String ℚ
  | PyVal.num q => Except.ok q
  | PyVal.bool b => Except.ok (if b then 1 else 0)
  | PyVal.str _ => Except.error "could not convert string to float"
  | _ => Except.error "float() argument must be a number"

/-- `dict.get("score")` with Python's duplicate-key rule (last wins). -/
def lookupField (fields : List (List Char × PyVal)) (key : List Char) : Option PyVal :=
  (List.find? (fun p => p.1 == key) fields.reverse).map Prod.snd

/-- `str(AttributeError)` raised by `verdict.get` when `json.loads` returned a
non-dict. -/
def attrErrMsg : String := "object has no attribute get"

/-- The dict `_parse_verdict` returns: lines 470-472 (score present, no other
keys) or lines 474-478 (score `None`, error string, truncated raw text). A
parsed object with a missing or `null` `score` field takes lines 470-472 with
`score = None` and no error key. -/
structure ParsedVerdict where
  score : Option ℚ
  error : Option (List Char)
  raw_response : Option (List Char)
deriving DecidableEq

/-- `f"Parse error: \x7bstr(e)[:50]\x7d"` (line 476). -/
def parseErrStr (e : String) : List Char := "Parse error: ".data ++ e.data.take 50

/-- `_parse_verdict` (lines 454-478). -/
def parse_verdict (response_text : List Char) : ParsedVerdict :=
  let text := unwrapText response_text
  match json_loads (stripL text) with
  | Except.error e =>
    { score := none, error := some (parseErrStr e), raw_response := some (text.take 200) }
  | Except.ok v =>
    match v with
    | PyVal.obj fields =>
      match lookupField fields "score".data with
      | none => { score := none, error := none, raw_response := none }
      | some PyVal.null => { score := none, error := none, raw_response := none }
      | some sv =>
        match pyFloat sv with
        | Except.ok q => { score := some q, error := none, raw_response := none }
        | Except.error e =>
          { score := none, error := some (parseErrStr e), raw_response := some (text.take 200) }
    | _ =>
      { score := none, error := some (parseErrStr attrErrMsg),
        raw_response := some (text.take 200) }

/-! ## Concrete instances used by witnesses and counterexamples -/

/-- A verdict whose `FC` parse failed: `CC`/`SA` scored, `FC` `None`, error
string attached (the shape `_evaluate_with_agent` produces, lines 242-259). -/
def vErr : Verdict :=
  { CC := some (4/5), SA := some (9/10), FC := none,
    error := some "Parse error: Expecting value" }

/-- One fully-scoring judge. -/
def w3 : JuryVerdicts :=
  [("gpt-5.2", ⟨some (1/2), some (1/2), some (1/2), none⟩)]

/-- Two judges with identical score triples. -/
def w4 : JuryVerdicts :=
  [("gpt-5.2", ⟨some (4/5), some (9/10), some (7/10), none⟩),
   ("DeepSeek-v3.2", ⟨some (4/5), some (9/10), some (7/10), none⟩)]

/-- Two valid judges whose `CC` scores are 0 and 1/10000 and whose `SA`/`FC`
scores agree: the only inter-judge deviation is the tiny `CC` spread. -/
def cex3 : JuryVerdicts :=
  [("gpt-5.2", ⟨some 0, some (1/2), some (1/2), none⟩),
   ("DeepSeek-v3.2", ⟨some (1/10000), some (1/2), some (1/2), none⟩)]

/-- Two valid judges: DeepSeek (CC weight 0.6) reports CC 1.0, GPT (CC weight
0.4) reports CC 0.0. -/
def w6 : JuryVerdicts :=
  [("gpt-5.2", ⟨some 0, some 0, some 0, none⟩),
   ("DeepSeek-v3.2", ⟨some 1, some 1, some 1, none⟩)]

/-- Two valid judges with all scores in \x7b0, 1\x7d. -/
def w10 : JuryVerdicts :=
  [("gpt-5.2", ⟨some 1, some 0, some 1, none⟩),
   ("DeepSeek-v3.2", ⟨some 0, some 1, some 1, none⟩)]

/-- A 40-word response text. -/
def resp40 : String :=
  "w w w w w w w w w w w w w w w w w w w w w w w w w w w w w w w w w w w w w w w w"

/-- Decidable score-range check: a present score lies in [0,1]. -/
def scoreIn01 : Option ℚ → Bool
  | none => true
  | some q => decide (0 ≤ q) && decide (q ≤ 1)

/-- All three optional scores of a verdict lie in [0,1]. -/
def scoresIn01 (v : Verdict) : Bool :=
  scoreIn01 v.CC && scoreIn01 v.SA && scoreIn01 v.FC

/-! ## Theorems — retry policy -/

/-- A message containing "429" is classified as retryable: either some timeout
pattern also matched (checked first), or the rate-limit check fires on "429". -/
theorem classify_429_retryable (e : PyExc)
    (h : containsSubL "429".data (toLowerL e.msg.data) = true) :
    classify_error e = ErrorType.timeout ∨ classify_error e = ErrorType.rateLimit := by
  have h3 : rateLimitPatterns.any (fun p => containsSubL p.data (toLowerL e.msg.data)) = true :=
    List.any_eq_true.mpr ⟨"429", by simp [rateLimitPatterns], h⟩
  unfold classify_error
  by_cases h1 : timeoutMsgPatterns.any (fun p => containsSubL p.data (toLowerL e.msg.data)) = true
  · simp [h1]
  · by_cases h2 : timeoutTypePatterns.any (fun p => containsSubL p.data (toLowerL e.tyName.data)) = true
    · simp [h1, h2]
    · simp [h1, h2, h3]

/-- For the three retryable classes, `should_retry` is exactly the attempt
bound. -/
theorem should_retry_retryable {et : ErrorType}
    (h : et = ErrorType.timeout ∨ et = ErrorType.rateLimit ∨ et = ErrorType.serviceError)
    (attempt maxRetries : ℕ) :
    should_retry et attempt maxRetries = decide (attempt < maxRetries) := by
  rcases h with h | h | h <;> subst h <;>
    · unfold should_retry
      by_cases hma : maxRetries ≤ attempt
      · simp [hma, Nat.not_lt.mpr hma]
      · simp [hma, Nat.lt_of_not_le hma]

/-- Authentication errors never retry. -/
theorem should_retry_auth (attempt maxRetries : ℕ) :
    should_retry ErrorType.authentication attempt maxRetries = false := by
  unfold should_retry
  split <;> rfl

/-- The retry loop on an operation that fails with a "429" message at every
attempt: it consumes all its fuel, one invocation per iteration, and ends in
failure. -/
theorem retryGo_429 {α : Type} (op : ℕ → Except PyExc α) (maxRetries : ℕ)
    (h : ∀ n, ∃ e, op n = Except.error e ∧
      containsSubL "429".data (toLowerL e.msg.data) = true) :
    ∀ fuel attempt, attempt + fuel = maxRetries + 1 →
      retryGo op maxRetries attempt fuel = (none, fuel) := by
  intro fuel
  induction fuel with
  | zero => intro attempt _; rfl
  | succ f ih =>
    intro attempt hsum
    obtain ⟨e, he, h429⟩ := h attempt
    have hsr : should_retry (classify_error e) attempt maxRetries
        = decide (attempt < maxRetries) := by
      refine should_retry_retryable ?_ attempt maxRetries
      rcases classify_429_retryable e h429 with hc | hc <;> simp [hc]
    by_cases hlt : attempt < maxRetries
    · have hrec := ih (attempt + 1) (by omega)
      simp only [retryGo, he, hsr, hlt, hrec]
      simp
    · have hf : f = 0 := by omega
      subst hf
      simp only [retryGo, he, hsr, hlt]
      simp

/-- C7: an operation that always raises with a message containing "429" is
attempted `1 + max_retries` times by `call_with_retry`, which then returns the
failure value `None`; no exception propagates (the embedding is a total
function into `Option`). -/
theorem C7_retry_429_exhausts {α : Type} (op : ℕ → Except PyExc α) (maxRetries : ℕ)
    (h : ∀ n, ∃ e, op n = Except.error e ∧
      containsSubL "429".data (toLowerL e.msg.data) = true) :
    call_with_retry op maxRetries = (none, maxRetries + 1) := by
  unfold call_with_retry
  exact retryGo_429 op maxRetries h (maxRetries + 1) 0 (by omega)

/-- Witness for C7: a concrete always-429 operation with `max_retries = 3` is
invoked 4 times and yields `None`. -/
theorem C7_witness :
    call_with_retry
      (fun _ => (Except.error ⟨"HTTP Error 429: Too Many Requests", "HTTPError"⟩
        : Except PyExc Unit)) 3 = (none, 4) :=
  C7_retry_429_exhausts _ 3 (fun _ => ⟨_, rfl, by decide⟩)

/-- C8: an operation whose first call raises with a message containing "401"
and matching no retryable pattern is classified as an authentication error;
`call_with_retry` makes exactly one attempt and returns `None`. -/
theorem C8_auth_single_attempt {α : Type} (op : ℕ → Except PyExc α) (maxRetries : ℕ)
    (e : PyExc) (h0 : op 0 = Except.error e)
    (h401 : containsSubL "401".data (toLowerL e.msg.data) = true)
    (hT : timeoutMsgPatterns.any (fun p => containsSubL p.data (toLowerL e.msg.data)) = false)
    (hTy : timeoutTypePatterns.any (fun p => containsSubL p.data (toLowerL e.tyName.data)) = false)
    (hR : rateLimitPatterns.any (fun p => containsSubL p.data (toLowerL e.msg.data)) = false)
    (hS : serviceErrorPatterns.any (fun p => containsSubL p.data (toLowerL e.msg.data)) = false) :
    classify_error e = ErrorType.authentication ∧
      call_with_retry op maxRetries = (none, 1) := by
  have hA : authPatterns.any (fun p => containsSubL p.data (toLowerL e.msg.data)) = true :=
    List.any_eq_true.mpr ⟨"401", by simp [authPatterns], h401⟩
  have hcls : classify_error e = ErrorType.authentication := by
    unfold classify_error
    simp [hT, hTy, hR, hS, hA]
  refine ⟨hcls, ?_⟩
  unfold call_with_retry
  simp only [retryGo, h0, hcls, should_retry_auth, if_false, Bool.false_eq_true]

/-- Witness for C8: a concrete 401 failure with `max_retries = 3` is attempted
once and yields `None`. -/
theorem C8_witness :
    classify_error ⟨"HTTP Error 401: Unauthorized", "HTTPError"⟩ = ErrorType.authentication ∧
      call_with_retry
        (fun _ => (Except.error ⟨"HTTP Error 401: Unauthorized", "HTTPError"⟩
          : Except PyExc Unit)) 3 = (none, 1) :=
  C8_auth_single_attempt _ 3 _ rfl (by decide) (by decide) (by decide) (by decide) (by decide)

/-! ## Theorems — rounding -/

/-- Round-half-even never exceeds an integer bound above its argument. -/
theorem roundHalfEvenR_le {y : ℝ} {B : ℤ} (h : y ≤ B) : roundHalfEvenR y ≤ B := by
  have hfl : ⌊y⌋ ≤ B := by simpa using Int.floor_mono h
  unfold roundHalfEvenR
  split
  · exact hfl
  · rename_i h1
    split
    · rename_i h2
      by_contra hcon
      have hEq : ⌊y⌋ = B := by omega
      have hy : y - ⌊y⌋ ≤ 0 := by
        rw [hEq]; linarith
      linarith
    · rename_i h2
      split
      · exact hfl
      · by_contra hcon
        have hEq : ⌊y⌋ = B := by omega
        have hy : y - ⌊y⌋ ≤ 0 := by
          rw [hEq]; linarith
        linarith

/-- Round-half-even never drops below an integer bound under its argument. -/
theorem roundHalfEvenR_ge {y : ℝ} {B : ℤ} (h : (B : ℝ) ≤ y) : B ≤ roundHalfEvenR y := by
  have hfl : B ≤ ⌊y⌋ := Int.le_floor.mpr h
  unfold roundHalfEvenR
  split
  · exact hfl
  · split
    · omega
    · split
      · exact hfl
      · omega

/-- `round(x, 4)` maps `[0,1]` into `[0,1]`. -/
theorem pyRound4R_mem01 {x : ℝ} (h0 : 0 ≤ x) (h1 : x ≤ 1) :
    0 ≤ pyRound4R x ∧ pyRound4R x ≤ 1 := by
  have hle : x * 10000 ≤ ((10000 : ℤ) : ℝ) := by push_cast; nlinarith
  have hge : (((0 : ℤ)) : ℝ) ≤ x * 10000 := by push_cast; nlinarith
  have h2 := roundHalfEvenR_le hle
  have h3 := roundHalfEvenR_ge hge
  unfold pyRound4R
  constructor
  · have hc : (0:ℝ) ≤ (roundHalfEvenR (x * 10000) : ℝ) := by exact_mod_cast h3
    exact div_nonneg hc (by norm_num)
  · rw [div_le_one (by norm_num)]
    exact_mod_cast h2

/-- The real and rational round-half-even agree on rationals. -/
theorem roundHalfEvenR_ratCast (q : ℚ) : roundHalfEvenR ((q : ℚ) : ℝ) = roundHalfEven q := by
  unfold roundHalfEvenR roundHalfEven
  rw [Rat.floor_cast]
  have hc1 : ((q:ℝ) - (⌊q⌋ : ℝ) < 1/2) ↔ (q - ⌊q⌋ < 1/2) := by
    rw [show ((1:ℝ)/2) = (((1:ℚ)/2 : ℚ) : ℝ) by norm_num,
      show ((q:ℝ) - (⌊q⌋ : ℝ)) = (((q - ⌊q⌋ : ℚ)) : ℝ) by push_cast; ring]
    exact Rat.cast_lt
  have hc2 : (1/2 < (q:ℝ) - (⌊q⌋ : ℝ)) ↔ ((1:ℚ)/2 < q - ⌊q⌋) := by
    rw [show ((1:ℝ)/2) = (((1:ℚ)/2 : ℚ) : ℝ) by norm_num,
      show ((q:ℝ) - (⌊q⌋ : ℝ)) = (((q - ⌊q⌋ : ℚ)) : ℝ) by push_cast; ring]
    exact Rat.cast_lt
  simp only [hc1, hc2]

/-- The real and rational `round(x, 4)` agree on rationals. -/
theorem pyRound4R_ratCast (q : ℚ) : pyRound4R ((q : ℚ) : ℝ) = ((pyRound4 q : ℚ) : ℝ) := by
  unfold pyRound4R pyRound4
  rw [show ((q:ℝ) * 10000) = (((q * 10000 : ℚ)) : ℝ) by push_cast; ring, roundHalfEvenR_ratCast]
  norm_cast

theorem pyRound4_one : pyRound4 1 = 1 := by
  unfold pyRound4 roundHalfEven
  norm_num

theorem pyRound4R_one : pyRound4R 1 = 1 := by
  rw [show (1:ℝ) = ((1:ℚ):ℝ) by norm_num, pyRound4R_ratCast, pyRound4_one]

theorem pyRound4_mem01 {q : ℚ} (h0 : 0 ≤ q) (h1 : q ≤ 1) :
    0 ≤ pyRound4 q ∧ pyRound4 q ≤ 1 := by
  have h := pyRound4R_mem01 (x := (q : ℝ)) (by exact_mod_cast h0) (by exact_mod_cast h1)
  rw [pyRound4R_ratCast] at h
  exact ⟨by exact_mod_cast h.1, by exact_mod_cast h.2⟩

/-- 29999/30000 = 0.99996... rounds to 1.0 at 4 decimals. -/
theorem pyRound4_cexval : pyRound4 (29999/30000 : ℚ) = 1 := by
  unfold pyRound4 roundHalfEven
  norm_num

/-! ## Theorems — statistics helpers -/

theorem sum_of_const {xs : List ℚ} {c : ℚ} (h : ∀ x ∈ xs, x = c) :
    xs.sum = xs.length * c := by
  induction xs with
  | nil => simp
  | cons a t ih =>
    have ha := h a (List.mem_cons_self a t)
    have ht := ih (fun x hx => h x (List.mem_cons_of_mem a hx))
    simp [List.sum_cons, ha, ht]
    ring

theorem npMean_const {xs : List ℚ} {c : ℚ} (hne : xs ≠ []) (h : ∀ x ∈ xs, x = c) :
    npMean xs = c := by
  have hlen : (xs.length : ℚ) ≠ 0 :=
    Nat.cast_ne_zero.mpr (Nat.pos_iff_ne_zero.mp (List.length_pos.mpr hne))
  unfold npMean
  rw [sum_of_const h, mul_comm, mul_div_assoc, div_self hlen, mul_one]

theorem popVariance_const {xs : List ℚ} {c : ℚ} (h : ∀ x ∈ xs, x = c) :
    popVariance xs = 0 := by
  rcases eq_or_ne xs [] with rfl | hne
  · simp [popVariance]
  · unfold popVariance
    have hm := npMean_const hne h
    have hz : (xs.map fun x => (x - npMean xs) ^ 2).sum = 0 := by
      apply List.sum_eq_zero
      intro y hy
      obtain ⟨x, hx, rfl⟩ := List.mem_map.mp hy
      rw [h x hx, hm]
      ring
    rw [hz]
    simp

theorem npStd_const {xs : List ℚ} {c : ℚ} (h : ∀ x ∈ xs, x = c) : npStd xs = 0 := by
  unfold npStd
  rw [popVariance_const h]
  simp

theorem stdGate_const {xs : List ℚ} {c : ℚ} (h : ∀ x ∈ xs, x = c) : stdGate xs = 0 := by
  unfold stdGate
  split
  · exact npStd_const h
  · rfl

theorem popVariance_pair (a b : ℚ) : popVariance [a, b] = (a - b) ^ 2 / 4 := by
  unfold popVariance npMean
  simp [List.sum_cons, List.sum_nil]
  ring

theorem npStd_pair (a b : ℚ) : npStd [a, b] = |(a:ℝ) - b| / 2 := by
  unfold npStd
  rw [popVariance_pair]
  push_cast
  rw [show ((a:ℝ) - b) ^ 2 / 4 = (((a:ℝ) - b) / 2) ^ 2 by ring, Real.sqrt_sq_eq_abs, abs_div]
  norm_num

/-! ## Theorems — consensus projections -/

/-- The zero-valid-judges early return of `_compute_consensus` (lines 505-515). -/
theorem compute_consensus_no_valid {vs : JuryVerdicts} (h : (validEntries vs).length = 0) :
    compute_consensus vs =
      { CC := none, SA := none, FC := none, agreement_score := 0,
        judge_variance_CC := none, judge_variance_SA := none, judge_variance_FC := none,
        judge_count := 0, error := some "No valid judges",
        recommendation := "FAILED - No valid judge results" } := by
  unfold compute_consensus
  rw [if_pos (by omega)]

theorem compute_consensus_agreement {vs : JuryVerdicts} (h : 1 ≤ (validEntries vs).length) :
    (compute_consensus vs).agreement_score = pyRound4R (agreementRaw vs) := by
  unfold compute_consensus
  rw [if_neg (by omega)]

theorem compute_consensus_CC {vs : JuryVerdicts} (h : 1 ≤ (validEntries vs).length) :
    (compute_consensus vs).CC =
      (weighted_mean vs Metric.CC (CONSENSUS_WEIGHTS Metric.CC) (valid_judges vs)).map pyRound4 := by
  unfold compute_consensus
  rw [if_neg (by omega)]

theorem compute_consensus_SA {vs : JuryVerdicts} (h : 1 ≤ (validEntries vs).length) :
    (compute_consensus vs).SA =
      (weighted_mean vs Metric.SA (CONSENSUS_WEIGHTS Metric.SA) (valid_judges vs)).map pyRound4 := by
  unfold compute_consensus
  rw [if_neg (by omega)]

theorem compute_consensus_FC {vs : JuryVerdicts} (h : 1 ≤ (validEntries vs).length) :
    (compute_consensus vs).FC =
      ((if fc_scores vs = [] then none else some (npMean (fc_scores vs))) :
        Option ℚ).map pyRound4 := by
  unfold compute_consensus
  rw [if_neg (by omega)]

/-- Lines 547-549 compute exactly the spec's clamp formula (before rounding). -/
theorem agreementRaw_eq_spec (vs : JuryVerdicts) : agreementRaw vs = specAgreement vs := by
  unfold agreementRaw specAgreement stdGate
  ring_nf

/-! ## Theorems — consensus claims -/

/-- C5: with zero valid judges the consensus aggregator returns `CC`, `SA` and
`FC` all null, `agreement_score` 0.0, `judge_count` 0, the explicit error
marker and the failure recommendation; no numeric default appears in the three
metrics. -/
theorem C5_zero_valid_judges (vs : JuryVerdicts) (h : (validEntries vs).length = 0) :
    (compute_consensus vs).CC = none ∧ (compute_consensus vs).SA = none ∧
    (compute_consensus vs).FC = none ∧ (compute_consensus vs).agreement_score = 0 ∧
    (compute_consensus vs).judge_count = 0 ∧
    (compute_consensus vs).error = some "No valid judges" ∧
    (compute_consensus vs).recommendation = "FAILED - No valid judge results" := by
  rw [compute_consensus_no_valid h]
  exact ⟨rfl, rfl, rfl, rfl, rfl, rfl, rfl⟩

/-- Witness for C5 at the empty verdicts map. -/
theorem C5_witness :
    (compute_consensus ([] : JuryVerdicts)).CC = none ∧
    (compute_consensus ([] : JuryVerdicts)).SA = none ∧
    (compute_consensus ([] : JuryVerdicts)).FC = none ∧
    (compute_consensus ([] : JuryVerdicts)).agreement_score = 0 ∧
    (compute_consensus ([] : JuryVerdicts)).judge_count = 0 ∧
    (compute_consensus ([] : JuryVerdicts)).error = some "No valid judges" ∧
    (compute_consensus ([] : JuryVerdicts)).recommendation = "FAILED - No valid judge results" :=
  C5_zero_valid_judges [] rfl

/-- Entries of an association list with nodup keys are determined by their
key. -/
theorem eq_of_fst_eq_of_nodup {α β : Type} : ∀ {l : List (α × β)} {p q : α × β},
    (l.map Prod.fst).Nodup → p ∈ l → q ∈ l → p.1 = q.1 → p = q := by
  intro l
  induction l with
  | nil => intro p q _ hp _ _; simp at hp
  | cons a t ih =>
    intro p q hnd hp hq hfst
    rw [List.map_cons, List.nodup_cons] at hnd
    rcases List.mem_cons.mp hp with hpa | hp' <;> rcases List.mem_cons.mp hq with hqa | hq'
    · rw [hpa, hqa]
    · subst hpa
      have hmem : q.1 ∈ t.map Prod.fst := List.mem_map_of_mem Prod.fst hq'
      rw [← hfst] at hmem
      exact absurd hmem hnd.1
    · subst hqa
      have hmem : p.1 ∈ t.map Prod.fst := List.mem_map_of_mem Prod.fst hp'
      rw [hfst] at hmem
      exact absurd hmem hnd.1
    · exact ih hnd.2 hp' hq' hfst

/-- C1 (amended): a judge is valid iff its verdict has no error field AND a
non-null `CC`; consequently a judge whose verdict carries an error string —
e.g. non-null `CC`/`SA` but a failed `FC` — is excluded from the valid set and
contributes to no metric. -/
theorem C1_valid_gate (v : Verdict) (vs : JuryVerdicts)
    (hnd : (vs.map Prod.fst).Nodup) :
    (isValidVerdict v = true ↔ (v.error = none ∧ v.CC ≠ none)) ∧
    (∀ p ∈ vs, p.2.error ≠ none → p.1 ∉ valid_judges vs) := by
  constructor
  · unfold isValidVerdict
    rw [Bool.and_eq_true, Option.isNone_iff_eq_none, Option.isSome_iff_ne_none]
  · intro p hp herr hmem
    unfold valid_judges at hmem
    obtain ⟨q, hq, hq1⟩ := List.mem_map.mp hmem
    have hqmem : q ∈ vs := List.mem_of_mem_filter hq
    have hqval : isValidVerdict q.2 = true := (List.mem_filter.mp hq).2
    have hqp : q = p := eq_of_fst_eq_of_nodup hnd hqmem hp hq1
    subst hqp
    rw [isValidVerdict, Bool.and_eq_true, Option.isNone_iff_eq_none] at hqval
    exact herr hqval.1

/-- Counterexample for C1: a verdict with non-null `CC` and `SA` but a failed
`FC` (error string attached) is NOT valid, and its `CC`/`SA` do not contribute
to the consensus — the aggregator sees zero valid judges. -/
theorem C1_counterexample :
    vErr.CC ≠ none ∧ isValidVerdict vErr = false ∧
    (compute_consensus [("gpt-5.2", vErr)]).CC = none ∧
    (compute_consensus [("gpt-5.2", vErr)]).SA = none ∧
    (compute_consensus [("gpt-5.2", vErr)]).judge_count = 0 := by
  have h := @compute_consensus_no_valid [("gpt-5.2", vErr)] rfl
  rw [h]
  exact ⟨by simp [vErr], rfl, rfl, rfl, rfl⟩

/-- Witness for C1's amended gate at a concrete verdict and map. -/
theorem C1_witness :
    (isValidVerdict ⟨some 1, some 1, some 1, none⟩ = true ↔
      ((⟨some 1, some 1, some 1, none⟩ : Verdict).error = none ∧
        (⟨some 1, some 1, some 1, none⟩ : Verdict).CC ≠ none)) ∧
    (∀ p ∈ ([("gpt-5.2", vErr)] : JuryVerdicts),
      p.2.error ≠ none → p.1 ∉ valid_judges [("gpt-5.2", vErr)]) :=
  C1_valid_gate ⟨some 1, some 1, some 1, none⟩ [("gpt-5.2", vErr)] (by decide)

/-- C3 (amended): with at least one valid judge, the returned
`agreement_score` equals the spec's clamp formula rounded half-even to 4
decimal places, and always lies in [0,1]. -/
theorem C3_agreement_rounded (vs : JuryVerdicts)
    (_hwf : ∀ p ∈ vs, WellFormed p.2 = true)
    (hv : 1 ≤ (validEntries vs).length) :
    (compute_consensus vs).agreement_score = pyRound4R (specAgreement vs) ∧
    0 ≤ (compute_consensus vs).agreement_score ∧
    (compute_consensus vs).agreement_score ≤ 1 := by
  have heq : (compute_consensus vs).agreement_score = pyRound4R (specAgreement vs) := by
    rw [compute_consensus_agreement hv, agreementRaw_eq_spec]
  have h0 : (0:ℝ) ≤ specAgreement vs := by
    unfold specAgreement
    exact le_min zero_le_one (le_max_left 0 _)
  have h1 : specAgreement vs ≤ 1 := by
    unfold specAgreement
    exact min_le_left 1 _
  obtain ⟨hb0, hb1⟩ := pyRound4R_mem01 h0 h1
  exact ⟨heq, by rw [heq]; exact hb0, by rw [heq]; exact hb1⟩

/-- Witness for C3 (amended) at a single-judge map. -/
theorem C3_witness :
    (compute_consensus w3).agreement_score = pyRound4R (specAgreement w3) ∧
    0 ≤ (compute_consensus w3).agreement_score ∧
    (compute_consensus w3).agreement_score ≤ 1 :=
  C3_agreement_rounded w3 (by decide) (by decide)

/-- Counterexample for C3 as stated: with `CC` scores 0 and 1/10000 the clamp
formula gives 29999/30000, but the returned `agreement_score` is its 4-decimal
rounding 1.0, so the two differ. -/
theorem C3_counterexample :
    (compute_consensus cex3).agreement_score = 1 ∧
    specAgreement cex3 = ((29999 : ℝ) / 30000) ∧
    (compute_consensus cex3).agreement_score ≠ specAgreement cex3 := by
  have hccstd : stdGate (cc_scores cex3) = 1/20000 := by
    rw [show cc_scores cex3 = [0, 1/10000] from rfl]
    unfold stdGate
    rw [if_pos (by norm_num), npStd_pair]
    push_cast
    rw [zero_sub, abs_neg, abs_of_nonneg (by norm_num)]
    norm_num
  have hsastd : stdGate (sa_scores cex3) = 0 := by
    rw [show sa_scores cex3 = [1/2, 1/2] from rfl]
    refine stdGate_const (c := 1/2) ?_
    intro x hx
    simp at hx
    rw [hx]
    norm_num
  have hfcstd : stdGate (fc_scores cex3) = 0 := by
    rw [show fc_scores cex3 = [1/2, 1/2] from rfl]
    refine stdGate_const (c := 1/2) ?_
    intro x hx
    simp at hx
    rw [hx]
    norm_num
  have hspec : specAgreement cex3 = ((29999 : ℝ) / 30000) := by
    unfold specAgreement
    rw [hccstd, hsastd, hfcstd]
    rw [show (1:ℝ) - 2 * (((1:ℝ)/20000 + 0 + 0) / 3) = 29999/30000 by norm_num]
    rw [max_eq_right (by norm_num : (0:ℝ) ≤ 29999/30000)]
    rw [min_eq_right (by norm_num : (29999:ℝ)/30000 ≤ 1)]
  have hag : (compute_consensus cex3).agreement_score = 1 := by
    rw [compute_consensus_agreement (by decide), agreementRaw_eq_spec, hspec]
    rw [show ((29999:ℝ)/30000) = (((29999/30000 : ℚ)) : ℝ) by norm_num]
    rw [pyRound4R_ratCast, pyRound4_cexval]
    norm_num
  refine ⟨hag, hspec, ?_⟩
  rw [hag, hspec]
  norm_num

/-- C4: if every valid judge (of which there is at least one) reports the same
`(CC, SA, FC)` triple, the returned `agreement_score` is exactly 1.0. -/
theorem C4_unanimous (vs : JuryVerdicts) (c s fq : ℚ)
    (hv : 1 ≤ (validEntries vs).length)
    (hall : ∀ p ∈ validEntries vs, p.2.CC = some c ∧ p.2.SA = some s ∧ p.2.FC = some fq) :
    (compute_consensus vs).agreement_score = 1 := by
  have hcc : ∀ x ∈ cc_scores vs, x = c := by
    intro x hx
    obtain ⟨p, hp, hpx⟩ := List.mem_filterMap.mp hx
    rw [(hall p hp).1] at hpx
    exact (Option.some.inj hpx).symm
  have hsa : ∀ x ∈ sa_scores vs, x = s := by
    intro x hx
    obtain ⟨p, hp, hpx⟩ := List.mem_filterMap.mp hx
    rw [(hall p hp).2.1] at hpx
    exact (Option.some.inj hpx).symm
  have hfc : ∀ x ∈ fc_scores vs, x = fq := by
    intro x hx
    obtain ⟨p, hp, hpx⟩ := List.mem_filterMap.mp hx
    rw [(hall p hp).2.2] at hpx
    exact (Option.some.inj hpx).symm
  rw [compute_consensus_agreement hv]
  have hone : agreementRaw vs = 1 := by
    unfold agreementRaw
    rw [stdGate_const hcc, stdGate_const hsa, stdGate_const hfc]
    norm_num
  rw [hone]
  exact pyRound4R_one

/-- Witness for C4: two judges with identical triples yield agreement 1.0. -/
theorem C4_witness : (compute_consensus w4).agreement_score = 1 := by
  refine C4_unanimous w4 (4/5) (9/10) (7/10) (by decide) ?_
  intro p hp
  rw [show validEntries w4 = w4 from rfl] at hp
  rcases hp with _ | ⟨_, hp⟩
  · exact ⟨rfl, rfl, rfl⟩
  · rcases hp with _ | ⟨_, hp⟩
    · exact ⟨rfl, rfl, rfl⟩
    · cases hp

theorem pyRound4_threefifths : pyRound4 (3/5 : ℚ) = 3/5 := by
  unfold pyRound4 roundHalfEven
  norm_num

/-- C6: the per-metric weighted consensus is a true weighted average over the
contributing judges — a zero total contributing weight yields null, and with
the source's CC weights (DeepSeek 0.6, GPT 0.4) and reported CC scores 1.0 and
0.0 the consensus CC is exactly 0.6, also after the aggregator's rounding. -/
theorem C6_weighted_mean_true_average (vs : JuryVerdicts) (metric : Metric)
    (weights : List (String × ℚ)) (valid : List String) :
    (((contributions vs metric weights valid).map Prod.snd).sum = 0 →
      weighted_mean vs metric weights valid = none) ∧
    weighted_mean w6 Metric.CC (CONSENSUS_WEIGHTS Metric.CC) (valid_judges w6) = some (3/5) ∧
    (compute_consensus w6).CC = some (3/5) := by
  have hwm : weighted_mean w6 Metric.CC (CONSENSUS_WEIGHTS Metric.CC) (valid_judges w6)
      = some (3/5) := by
    have hc : contributions w6 Metric.CC (CONSENSUS_WEIGHTS Metric.CC) (valid_judges w6)
        = [(1, 3/5), (0, 2/5)] := rfl
    simp only [weighted_mean, hc]
    norm_num
  refine ⟨fun h => ?_, hwm, ?_⟩
  · simp only [weighted_mean]
    rw [if_pos h]
  · rw [compute_consensus_CC (by decide), hwm]
    simp only [Option.map_some']
    rw [pyRound4_threefifths]

/-- A present score passing the decidable range check lies in [0,1]. -/
theorem scoreIn01_spec {o : Option ℚ} (h : scoreIn01 o = true) {x : ℚ}
    (hx : o = some x) : 0 ≤ x ∧ x ≤ 1 := by
  subst hx
  unfold scoreIn01 at h
  rw [Bool.and_eq_true, decide_eq_true_eq, decide_eq_true_eq] at h
  exact h

/-- Every contribution pair carries a weight from the weight table and a score
from some verdict of the map. -/
theorem contributions_mem {vs : JuryVerdicts} {metric : Metric}
    {weights : List (String × ℚ)} {valid : List String} {xw : ℚ × ℚ}
    (h : xw ∈ contributions vs metric weights valid) :
    (∃ nw ∈ weights, xw.2 = nw.2) ∧ (∃ p ∈ vs, p.2.get metric = some xw.1) := by
  unfold contributions at h
  obtain ⟨nw, hnw, hf⟩ := List.mem_filterMap.mp h
  by_cases hv : nw.1 ∈ valid
  · rw [if_pos hv] at hf
    cases hl : lookupJudge vs nw.1 with
    | none => rw [hl] at hf; simp at hf
    | some v =>
      rw [hl] at hf
      obtain ⟨x, hx, hxw⟩ := Option.map_eq_some'.mp hf
      refine ⟨⟨nw, hnw, ?_⟩, ?_⟩
      · rw [← hxw]
      · unfold lookupJudge at hl
        obtain ⟨p0, hfind, hsnd⟩ := Option.map_eq_some'.mp hl
        exact ⟨p0, List.mem_of_find?_eq_some hfind, by rw [hsnd, hx, ← hxw]⟩
  · rw [if_neg hv] at hf
    simp at hf

/-- The weighted mean with nonnegative weights of scores in [0,1] lies in
[0,1] (it is a convex combination of the contributing scores). -/
theorem weighted_mean_mem01 {vs : JuryVerdicts} {metric : Metric}
    {weights : List (String × ℚ)} {valid : List String} {q : ℚ}
    (hw : ∀ nw ∈ weights, (0:ℚ) ≤ nw.2)
    (hs : ∀ p ∈ vs, ∀ x, p.2.get metric = some x → 0 ≤ x ∧ x ≤ 1)
    (h : weighted_mean vs metric weights valid = some q) :
    0 ≤ q ∧ q ≤ 1 := by
  have hbd : ∀ xw ∈ contributions vs metric weights valid,
      0 ≤ xw.2 ∧ 0 ≤ xw.1 ∧ xw.1 ≤ 1 := by
    intro xw hxw
    obtain ⟨⟨nw, hnw, he⟩, ⟨p, hp, hpx⟩⟩ := contributions_mem hxw
    exact ⟨by rw [he]; exact hw nw hnw, (hs p hp xw.1 hpx).1, (hs p hp xw.1 hpx).2⟩
  simp only [weighted_mean] at h
  by_cases hz : ((contributions vs metric weights valid).map Prod.snd).sum = 0
  · rw [if_pos hz] at h
    simp at h
  · rw [if_neg hz] at h
    have hq := (Option.some.inj h).symm
    have hW0 : (0:ℚ) ≤ ((contributions vs metric weights valid).map Prod.snd).sum := by
      apply List.sum_nonneg
      intro x hx
      obtain ⟨xw, hxw, rfl⟩ := List.mem_map.mp hx
      exact (hbd xw hxw).1
    have hWpos : (0:ℚ) < ((contributions vs metric weights valid).map Prod.snd).sum :=
      lt_of_le_of_ne hW0 (Ne.symm hz)
    have hS0 : (0:ℚ) ≤ ((contributions vs metric weights valid).map
        (fun p => p.1 * p.2)).sum := by
      apply List.sum_nonneg
      intro x hx
      obtain ⟨xw, hxw, rfl⟩ := List.mem_map.mp hx
      exact mul_nonneg (hbd xw hxw).2.1 (hbd xw hxw).1
    have hSW : ((contributions vs metric weights valid).map (fun p => p.1 * p.2)).sum ≤
        ((contributions vs metric weights valid).map Prod.snd).sum := by
      apply List.sum_le_sum
      intro xw hxw
      obtain ⟨h1, h2, h3⟩ := hbd xw hxw
      nlinarith
    rw [hq]
    exact ⟨div_nonneg hS0 hW0, (div_le_one hWpos).mpr hSW⟩

/-- The arithmetic mean of a nonempty list of scores in [0,1] lies in [0,1]. -/
theorem npMean_mem01 {xs : List ℚ} (hne : xs ≠ [])
    (hs : ∀ x ∈ xs, 0 ≤ x ∧ x ≤ 1) : 0 ≤ npMean xs ∧ npMean xs ≤ 1 := by
  have hn : (0:ℚ) < (xs.length : ℚ) := by
    exact_mod_cast List.length_pos.mpr hne
  have h0 : (0:ℚ) ≤ xs.sum := List.sum_nonneg (fun x hx => (hs x hx).1)
  have h1 : xs.sum ≤ (xs.length : ℚ) := by
    have hmap : (xs.map id).sum ≤ (xs.map (fun _ => (1:ℚ))).sum :=
      List.sum_le_sum (fun x hx => by simpa using (hs x hx).2)
    simpa using hmap
  unfold npMean
  exact ⟨div_nonneg h0 (le_of_lt hn), by rw [div_le_one hn]; exact h1⟩

/-- C10 (implicit invariant): when all present judge scores lie in [0,1],
every non-null consensus value for CC, SA and FC lies in [0,1]: the CC/SA
weighted means are convex combinations, FC is an arithmetic mean, and the
4-decimal rounding preserves the interval. -/
theorem C10_consensus_unit_interval (vs : JuryVerdicts)
    (hr : ∀ p ∈ vs, scoresIn01 p.2 = true) :
    (∀ q, (compute_consensus vs).CC = some q → 0 ≤ q ∧ q ≤ 1) ∧
    (∀ q, (compute_consensus vs).SA = some q → 0 ≤ q ∧ q ≤ 1) ∧
    (∀ q, (compute_consensus vs).FC = some q → 0 ≤ q ∧ q ≤ 1) := by
  have hs : ∀ m : Metric, ∀ p ∈ vs, ∀ x, p.2.get m = some x → 0 ≤ x ∧ x ≤ 1 := by
    intro m p hp x hx
    have h := hr p hp
    unfold scoresIn01 at h
    rw [Bool.and_eq_true, Bool.and_eq_true] at h
    cases m with
    | CC => exact scoreIn01_spec h.1.1 hx
    | SA => exact scoreIn01_spec h.1.2 hx
    | FC => exact scoreIn01_spec h.2 hx
  by_cases hv : (validEntries vs).length = 0
  · rw [compute_consensus_no_valid hv]
    exact ⟨fun q hq => by simp at hq, fun q hq => by simp at hq, fun q hq => by simp at hq⟩
  · have hv1 : 1 ≤ (validEntries vs).length := Nat.one_le_iff_ne_zero.mpr hv
    have hwCC : ∀ nw ∈ CONSENSUS_WEIGHTS Metric.CC, (0:ℚ) ≤ nw.2 := by
      intro nw hnw
      fin_cases hnw <;> norm_num
    have hwSA : ∀ nw ∈ CONSENSUS_WEIGHTS Metric.SA, (0:ℚ) ≤ nw.2 := by
      intro nw hnw
      fin_cases hnw <;> norm_num
    refine ⟨?_, ?_, ?_⟩
    · intro q hq
      rw [compute_consensus_CC hv1] at hq
      obtain ⟨q', hq', hfq⟩ := Option.map_eq_some'.mp hq
      obtain ⟨hq0, hq1⟩ := weighted_mean_mem01 hwCC (hs Metric.CC) hq'
      rw [← hfq]
      exact pyRound4_mem01 hq0 hq1
    · intro q hq
      rw [compute_consensus_SA hv1] at hq
      obtain ⟨q', hq', hfq⟩ := Option.map_eq_some'.mp hq
      obtain ⟨hq0, hq1⟩ := weighted_mean_mem01 hwSA (hs Metric.SA) hq'
      rw [← hfq]
      exact pyRound4_mem01 hq0 hq1
    · intro q hq
      rw [compute_consensus_FC hv1] at hq
      by_cases hfc : fc_scores vs = []
      · rw [if_pos hfc] at hq
        simp at hq
      · rw [if_neg hfc] at hq
        rw [Option.map_some'] at hq
        have hq' := Option.some.inj hq
        have hmem : ∀ x ∈ fc_scores vs, 0 ≤ x ∧ x ≤ 1 := by
          intro x hx
          obtain ⟨p, hp, hpx⟩ := List.mem_filterMap.mp hx
          exact hs Metric.FC p (List.mem_of_mem_filter hp) x hpx
        obtain ⟨h0, h1⟩ := npMean_mem01 hfc hmem
        rw [← hq']
        exact pyRound4_mem01 h0 h1

/-- Witness for C10 at a concrete two-judge map with 0/1 scores. -/
theorem C10_witness :
    (∀ q, (compute_consensus w10).CC = some q → 0 ≤ q ∧ q ≤ 1) ∧
    (∀ q, (compute_consensus w10).SA = some q → 0 ≤ q ∧ q ≤ 1) ∧
    (∀ q, (compute_consensus w10).FC = some q → 0 ≤ q ∧ q ≤ 1) :=
  C10_consensus_unit_interval w10 (by decide)

/-! ## Theorems — prompt builder -/

/-- For compression 0.1 and a 40-word response (limit 20, violation 2.0×) the
rendered prompt carries the MINOR note "exceeds expected length by 100%". -/
theorem promptNote_resp40 :
    promptViolationNote resp40 (1/10) none = ViolationNote.minor 100 := by
  have hwc : word_count resp40 = 40 := by decide
  unfold promptViolationNote prompt_word_limit
  rw [if_pos (by norm_num : (1:ℚ)/10 < 3/10), hwc]
  show violation_note 40 (some 20) = ViolationNote.minor 100
  simp only [violation_note]
  norm_num

/-- C2 (amended): the violation-ratio classification is compliant for ratio
≤ 1.5, minor (with the excess percentage) for 1.5 < ratio ≤ 2, and major only
for ratio > 2; in particular the compression-0.1 / 40-word instance (ratio
exactly 2.0) produces the minor note, not the major one. -/
theorem C2_violation_thresholds (wc l : ℕ) (hl : 0 < l) :
    ((wc : ℚ) / l ≤ 3/2 → violation_note wc (some l) = ViolationNote.compliant) ∧
    (3/2 < (wc : ℚ) / l → (wc : ℚ) / l ≤ 2 →
      violation_note wc (some l) = ViolationNote.minor (((wc : ℚ) / l - 1) * 100)) ∧
    (2 < (wc : ℚ) / l → violation_note wc (some l) = ViolationNote.major ((wc : ℚ) / l)) ∧
    promptViolationNote resp40 (1/10) none = ViolationNote.minor 100 := by
  have hl0 : ¬(l = 0) := Nat.pos_iff_ne_zero.mp hl
  refine ⟨fun h => ?_, fun h1 h2 => ?_, fun h => ?_, promptNote_resp40⟩
  · simp only [violation_note]
    rw [if_neg hl0, if_neg (not_lt.mpr (h.trans (by norm_num))), if_neg (not_lt.mpr h)]
  · simp only [violation_note]
    rw [if_neg hl0, if_neg (not_lt.mpr h2), if_pos h1]
  · simp only [violation_note]
    rw [if_neg hl0, if_pos h]

/-- Witness for C2 (amended) at the named instance wc = 40, limit 20. -/
theorem C2_witness :
    (((40:ℕ) : ℚ) / (20:ℕ) ≤ 3/2 →
      violation_note 40 (some 20) = ViolationNote.compliant) ∧
    (3/2 < ((40:ℕ) : ℚ) / (20:ℕ) → ((40:ℕ) : ℚ) / (20:ℕ) ≤ 2 →
      violation_note 40 (some 20) = ViolationNote.minor ((((40:ℕ) : ℚ) / (20:ℕ) - 1) * 100)) ∧
    (2 < ((40:ℕ) : ℚ) / (20:ℕ) →
      violation_note 40 (some 20) = ViolationNote.major (((40:ℕ) : ℚ) / (20:ℕ))) ∧
    promptViolationNote resp40 (1/10) none = ViolationNote.minor 100 :=
  C2_violation_thresholds 40 20 (by norm_num)

/-- Counterexample for C2 as stated: at ratio exactly 2.0 (compression 0.1,
40 words against the 20-word limit) the note is the minor one, not major. -/
theorem C2_counterexample :
    promptViolationNote resp40 (1/10) none = ViolationNote.minor 100 ∧
    promptViolationNote resp40 (1/10) none ≠ ViolationNote.major 2 := by
  refine ⟨promptNote_resp40, ?_⟩
  rw [promptNote_resp40]
  simp

/-! ## Theorems — verdict parser -/

/-- The error string of a parse failure: 13-char prefix plus at most 50 chars
of the exception text. -/
theorem parseErrStr_len (msg : String) : (parseErrStr msg).length ≤ 63 := by
  unfold parseErrStr
  rw [List.length_append]
  have h1 : ("Parse error: ".data).length = 13 := by decide
  have h2 : (msg.data.take 50).length ≤ 50 := by
    rw [List.length_take]
    exact min_le_left _ _
  omega

/-- C9 (amended): the verdict parser is total; on every input it either
returns a score and nothing else, or a null score — the null-score result
carries an error string (≤ 63 chars) plus the 200-char-truncated (possibly
fence-unwrapped) text when the failure is unparsable JSON, a non-object
result, or a non-coercible score, but carries NO error when the JSON parses to
an object whose score field is merely missing or null. -/
theorem C9_parse_verdict_shape (t : List Char) :
    (∃ q, parse_verdict t = ⟨some q, none, none⟩) ∨
    ((parse_verdict t).score = none ∧
      (((parse_verdict t).error = none ∧ (parse_verdict t).raw_response = none) ∨
        (∃ e, (parse_verdict t).error = some e ∧ e.length ≤ 63 ∧
          (parse_verdict t).raw_response = some ((unwrapText t).take 200)))) := by
  cases hj : json_loads (stripL (unwrapText t)) with
  | error e =>
    right
    refine ⟨?_, Or.inr ⟨parseErrStr e, ?_, parseErrStr_len e, ?_⟩⟩ <;>
      simp [parse_verdict, hj]
  | ok v =>
    cases v with
    | obj fields =>
      cases hl : lookupField fields "score".data with
      | none =>
        right
        refine ⟨?_, Or.inl ⟨?_, ?_⟩⟩ <;> simp [parse_verdict, hj, hl]
      | some sv =>
        cases sv with
        | null =>
          right
          refine ⟨?_, Or.inl ⟨?_, ?_⟩⟩ <;> simp [parse_verdict, hj, hl]
        | num q =>
          left
          exact ⟨q, by simp [parse_verdict, hj, hl, pyFloat]⟩
        | bool b =>
          left
          exact ⟨if b then 1 else 0, by simp [parse_verdict, hj, hl, pyFloat]⟩
        | str s =>
          right
          refine ⟨?_, Or.inr ⟨parseErrStr "could not convert string to float", ?_,
            parseErrStr_len _, ?_⟩⟩ <;> simp [parse_verdict, hj, hl, pyFloat]
        | arr xs =>
          right
          refine ⟨?_, Or.inr ⟨parseErrStr "float() argument must be a number", ?_,
            parseErrStr_len _, ?_⟩⟩ <;> simp [parse_verdict, hj, hl, pyFloat]
        | obj f2 =>
          right
          refine ⟨?_, Or.inr ⟨parseErrStr "float() argument must be a number", ?_,
            parseErrStr_len _, ?_⟩⟩ <;> simp [parse_verdict, hj, hl, pyFloat]
    | null =>
      right
      refine ⟨?_, Or.inr ⟨parseErrStr attrErrMsg, ?_, parseErrStr_len _, ?_⟩⟩ <;>
        simp [parse_verdict, hj]
    | bool b =>
      right
      refine ⟨?_, Or.inr ⟨parseErrStr attrErrMsg, ?_, parseErrStr_len _, ?_⟩⟩ <;>
        simp [parse_verdict, hj]
    | num q =>
      right
      refine ⟨?_, Or.inr ⟨parseErrStr attrErrMsg, ?_, parseErrStr_len _, ?_⟩⟩ <;>
        simp [parse_verdict, hj]
    | str s =>
      right
      refine ⟨?_, Or.inr ⟨parseErrStr attrErrMsg, ?_, parseErrStr_len _, ?_⟩⟩ <;>
        simp [parse_verdict, hj]
    | arr xs =>
      right
      refine ⟨?_, Or.inr ⟨parseErrStr attrErrMsg, ?_, parseErrStr_len _, ?_⟩⟩ <;>
        simp [parse_verdict, hj]

/-- Counterexample for C9 as stated: the input "\x7b\x7d" parses as an empty
JSON object, so the score field is missing — the parser returns a null score
with NO error string and NO raw copy attached. -/
theorem C9_counterexample :
    (parse_verdict "\x7b\x7d".data).score = none ∧
    (parse_verdict "\x7b\x7d".data).error = none ∧
    (parse_verdict "\x7b\x7d".data).raw_response = none := by
  decide

end CDCT
